import Mathlib

/-!
Verification of `slowbook/mldata` (src/index.ts), a batch product-search
collector: it paginates a search API per query, caps the records per query,
formats them as CSV rows and merges them into `data.csv`.

Embedding conventions:
  - JavaScript numbers that the program only ever uses as integers (prices,
    rating counts) are modelled as `Nat`/`Int`; `starRating` is modelled as an
    integer since no claim depends on decimal rating rendering.
  - `Number.prototype.toFixed(1)` on a quotient `n / d` is modelled by exact
    rational rounding half away from zero (`toFixedOneDiv`); this agrees with
    the double-precision computation on every input appearing in the claims.
  - `toLocaleString("en-IN")` on a natural number is the Indian digit grouping
    (last three digits, then groups of two, separated by commas).
  - The HTTP transport is an oracle `Nat → PageOutcome` giving, for each page
    number, what the `try` block observes: a thrown transport error (fetch
    rejection, non-ok status, or JSON parse failure), or a parsed body with a
    `results` list and a `pagination.nextPage` field. A missing/malformed
    `pagination` object (reading `.nextPage` throws after the results were
    pushed) is `.page results none`; an absent `results` field behaves exactly
    like an empty list in the code (`data.results && data.results.length > 0`),
    so both are `[]`.
  - The async loop is a total function: the `catch` absorbs every failure, so
    failures are data (`PageOutcome.transportError`), never Lean exceptions.
-/

def TARGET_PRODUCTS_PER_QUERY : Nat := 500

structure ImageSet where
  original : String
  small : String
  medium : String
  large : String
deriving DecidableEq

structure SearchItem where
  id : String
  productUrl : String
  title : String
  image : ImageSet
  currency : String
  price : Nat
  originalPrice : Nat
  starRating : Int
  totalRatings : Int
  apiUrl : String
deriving DecidableEq

/-- Indian digit grouping, working on a reversed digit list: after the last
three digits, commas every two digits. -/
def chunkTwoRev : List Char → List Char
  | [] => []
  | [a] => [a]
  | [a, b] => [a, b]
  | a :: b :: c :: rest => a :: b :: ',' :: chunkTwoRev (c :: rest)

/-- Digits of a number (most significant first) with en-IN comma grouping. -/
def indianDigits (ds : List Char) : List Char :=
  let r := ds.reverse
  if r.length ≤ 3 then ds
  else ((r.take 3) ++ (',' :: chunkTwoRev (r.drop 3))).reverse

/-- Embeds `formatPrice`: rupee sign plus `price.toLocaleString("en-IN")`. -/
def formatPrice (price : Nat) : String :=
  "₹" ++ String.mk (indianDigits (Nat.toDigits 10 price))

/-- Embeds `(n / d).toFixed(1)` for nonnegative `n` and positive even `d` by
exact rational rounding half away from zero to one decimal place. -/
def toFixedOneDiv (n : Int) (d : Int) : String :=
  let q : Int := (10 * n + d / 2) / d
  toString (q / 10) ++ "." ++ toString (q % 10).natAbs

/-- Embeds `formatRatings` from src/index.ts. -/
def formatRatings (totalRatings : Int) : String :=
  if totalRatings = -1 then "Number 1 Top-Rated"
  else if totalRatings < 1000 then "(" ++ toString totalRatings ++ ")"
  else if totalRatings < 1000000 then "(" ++ toFixedOneDiv totalRatings 1000 ++ "K)"
  else "(" ++ toFixedOneDiv totalRatings 1000000 ++ "M)"

/-- Embeds `field.replace(/"/g, (two quotes))`: every double quote doubled. -/
def doubleQuotes : List Char → List Char
  | [] => []
  | c :: cs => if c = '"' then '"' :: '"' :: doubleQuotes cs else c :: doubleQuotes cs

/-- Embeds the condition of `escapeCsvField`: the field contains a comma, a
double quote, or a newline. -/
def containsBadChar (f : String) : Bool :=
  f.data.contains ',' || f.data.contains '"' || f.data.contains '\n'

/-- Embeds `escapeCsvField` from src/index.ts. -/
def escapeCsvField (field : String) : String :=
  if containsBadChar field then
    "\"" ++ String.mk (doubleQuotes field.data) ++ "\""
  else field

/-- Embeds `productToCsvRow` from src/index.ts: the template literal joining
the seven fields with commas. -/
def productToCsvRow (product : SearchItem) : String :=
  let title := escapeCsvField product.title
  let price := formatPrice product.price
  let rating := toString product.starRating
  let ratings := formatRatings product.totalRatings
  let url := product.productUrl
  let image := product.image.small
  let source := "Amazon"
  title ++ "," ++ price ++ "," ++ rating ++ "," ++ ratings ++ "," ++ url ++ ","
    ++ image ++ "," ++ source

/-- Number of unquoted commas in a line, tracking CSV quote state. -/
def csvCommaCount : List Char → Bool → Nat
  | [], _ => 0
  | c :: cs, inQ =>
    if c = '"' then csvCommaCount cs (!inQ)
    else if c = ',' then
      (if inQ then csvCommaCount cs inQ else 1 + csvCommaCount cs inQ)
    else csvCommaCount cs inQ

/-- Number of fields a CSV reader sees on one line. -/
def csvFieldCount (line : String) : Nat :=
  csvCommaCount line.data false + 1

example : formatPrice 2500 = "₹2,500" := by decide
example : formatPrice 1234567 = "₹12,34,567" := by decide
example : formatRatings 2500 = "(2.5K)" := by decide
example : formatRatings 999999 = "(1000.0K)" := by decide
example : escapeCsvField "He said \"hi\", ok" = "\"He said \"\"hi\"\", ok\"" := by decide

/-- What one iteration of the `try` block in `fetchProducts` observes for a
given page number: a thrown failure (network error, non-ok HTTP status, or
JSON parse failure), or a parsed body. In `.page results pagination`,
`pagination = none` means the `pagination` object is missing or malformed, so
that reading `pagination.nextPage` throws; `pagination = some nxt` gives the
value of `nextPage` (`none` = null). -/
inductive PageOutcome where
  | transportError
  | page (results : List SearchItem) (pagination : Option (Option String))
deriving DecidableEq

/-- Embeds the `while (hasMore && allProducts.length < TARGET)` loop of
`fetchProducts`. The state is the current page number and the accumulator;
the returned trace records, for each page request actually issued, the page
number and the accumulator length at the moment of the request. Setting
`hasMore = false` is modelled by returning; the `catch` absorbs the thrown
cases (`transportError`, and the pagination read throwing after the push). -/
def fetchGo (t : Nat → PageOutcome) (page : Nat) (acc : List SearchItem)
    (trace : List (Nat × Nat)) : List SearchItem × List (Nat × Nat) :=
  if _h : acc.length < TARGET_PRODUCTS_PER_QUERY then
    let tr := trace ++ [(page, acc.length)]
    match t page with
    | .transportError => (acc, tr)
    | .page results pagination =>
      if _hr : results.length > 0 then
        match pagination with
        | none => (acc ++ results, tr)
        | some none => (acc ++ results, tr)
        | some (some _) => fetchGo t (page + 1) (acc ++ results) tr
      else (acc, tr)
  else (acc, trace)
termination_by TARGET_PRODUCTS_PER_QUERY - acc.length
decreasing_by
  simp only [List.length_append]
  omega

/-- Embeds `fetchProducts` from src/index.ts: run the loop from page 1 with an
empty accumulator, then `slice(0, TARGET_PRODUCTS_PER_QUERY)`. -/
def fetchProducts (t : Nat → PageOutcome) : List SearchItem :=
  (fetchGo t 1 [] []).1.take TARGET_PRODUCTS_PER_QUERY

/-- The trace of page requests issued while fetching one query. -/
def fetchRequestTrace (t : Nat → PageOutcome) : List (Nat × Nat) :=
  (fetchGo t 1 [] []).2

theorem fetchGo_done (t : Nat → PageOutcome) (p : Nat) (acc : List SearchItem)
    (tr : List (Nat × Nat)) (h : ¬ acc.length < TARGET_PRODUCTS_PER_QUERY) :
    fetchGo t p acc tr = (acc, tr) := by
  rw [fetchGo]
  simp [h]

theorem fetchGo_error (t : Nat → PageOutcome) (p : Nat) (acc : List SearchItem)
    (tr : List (Nat × Nat)) (h : acc.length < TARGET_PRODUCTS_PER_QUERY)
    (he : t p = .transportError) :
    fetchGo t p acc tr = (acc, tr ++ [(p, acc.length)]) := by
  rw [fetchGo]
  simp [h, he]

theorem fetchGo_empty (t : Nat → PageOutcome) (p : Nat) (acc : List SearchItem)
    (tr : List (Nat × Nat)) (pag : Option (Option String))
    (h : acc.length < TARGET_PRODUCTS_PER_QUERY) (he : t p = .page [] pag) :
    fetchGo t p acc tr = (acc, tr ++ [(p, acc.length)]) := by
  rw [fetchGo]
  simp [h, he]

theorem fetchGo_badPagination (t : Nat → PageOutcome) (p : Nat)
    (acc : List SearchItem) (tr : List (Nat × Nat)) (results : List SearchItem)
    (h : acc.length < TARGET_PRODUCTS_PER_QUERY) (hr : results ≠ [])
    (he : t p = .page results none) :
    fetchGo t p acc tr = (acc ++ results, tr ++ [(p, acc.length)]) := by
  rw [fetchGo]
  simp [h, he, List.length_pos.mpr hr]

theorem fetchGo_lastPage (t : Nat → PageOutcome) (p : Nat)
    (acc : List SearchItem) (tr : List (Nat × Nat)) (results : List SearchItem)
    (h : acc.length < TARGET_PRODUCTS_PER_QUERY) (hr : results ≠ [])
    (he : t p = .page results (some none)) :
    fetchGo t p acc tr = (acc ++ results, tr ++ [(p, acc.length)]) := by
  rw [fetchGo]
  simp [h, he, List.length_pos.mpr hr]

theorem fetchGo_next (t : Nat → PageOutcome) (p : Nat) (acc : List SearchItem)
    (tr : List (Nat × Nat)) (results : List SearchItem) (s : String)
    (h : acc.length < TARGET_PRODUCTS_PER_QUERY) (hr : results ≠ [])
    (he : t p = .page results (some (some s))) :
    fetchGo t p acc tr =
      fetchGo t (p + 1) (acc ++ results) (tr ++ [(p, acc.length)]) := by
  rw [fetchGo]
  simp [h, he, List.length_pos.mpr hr]

/-- Every entry of the request trace either was already in the starting trace
or records an accumulator length strictly below the cap: the loop guard is
checked before each request is issued. -/
theorem fetchGo_trace_below_cap :
    ∀ (n : Nat) (t : Nat → PageOutcome) (p : Nat) (acc : List SearchItem)
      (tr : List (Nat × Nat)),
      TARGET_PRODUCTS_PER_QUERY - acc.length ≤ n →
      ∀ e ∈ (fetchGo t p acc tr).2, e ∈ tr ∨ e.2 < TARGET_PRODUCTS_PER_QUERY := by
  intro n
  induction n with
  | zero =>
    intro t p acc tr hn e he
    rw [fetchGo_done t p acc tr (by omega)] at he
    exact Or.inl he
  | succ n ih =>
    intro t p acc tr _hn e he
    by_cases hlt : acc.length < TARGET_PRODUCTS_PER_QUERY
    · cases ht : t p with
      | transportError =>
        rw [fetchGo_error t p acc tr hlt ht] at he
        rcases List.mem_append.mp he with h1 | h1
        · exact Or.inl h1
        · right
          simp only [List.mem_singleton] at h1
          subst h1
          exact hlt
      | page results pagination =>
        rcases results with _ | ⟨r0, rs⟩
        · rw [fetchGo_empty t p acc tr pagination hlt ht] at he
          rcases List.mem_append.mp he with h1 | h1
          · exact Or.inl h1
          · right
            simp only [List.mem_singleton] at h1
            subst h1
            exact hlt
        · have hne : r0 :: rs ≠ ([] : List SearchItem) := by simp
          rcases pagination with _ | ⟨_ | s⟩
          · rw [fetchGo_badPagination t p acc tr _ hlt hne ht] at he
            rcases List.mem_append.mp he with h1 | h1
            · exact Or.inl h1
            · right
              simp only [List.mem_singleton] at h1
              subst h1
              exact hlt
          · rw [fetchGo_lastPage t p acc tr _ hlt hne ht] at he
            rcases List.mem_append.mp he with h1 | h1
            · exact Or.inl h1
            · right
              simp only [List.mem_singleton] at h1
              subst h1
              exact hlt
          · rw [fetchGo_next t p acc tr _ s hlt hne ht] at he
            have hlen : TARGET_PRODUCTS_PER_QUERY - (acc ++ r0 :: rs).length ≤ n := by
              simp only [List.length_append, List.length_cons]
              omega
            rcases ih t (p + 1) (acc ++ r0 :: rs) (tr ++ [(p, acc.length)]) hlen e he with
              h1 | h1
            · rcases List.mem_append.mp h1 with h2 | h2
              · exact Or.inl h2
              · right
                simp only [List.mem_singleton] at h2
                subst h2
                exact hlt
            · exact Or.inr h1
    · rw [fetchGo_done t p acc tr hlt] at he
      exact Or.inl he

/-- If every page has nonempty results and a non-null next-page token, the
loop keeps going until the accumulator reaches the cap. -/
theorem fetchGo_reaches_cap :
    ∀ (n : Nat) (t : Nat → PageOutcome),
      (∀ p, ∃ r s, t p = .page r (some (some s)) ∧ r ≠ []) →
      ∀ (p : Nat) (acc : List SearchItem) (tr : List (Nat × Nat)),
        TARGET_PRODUCTS_PER_QUERY - acc.length ≤ n →
        TARGET_PRODUCTS_PER_QUERY ≤ (fetchGo t p acc tr).1.length := by
  intro n
  induction n with
  | zero =>
    intro t _ p acc tr hn
    rw [fetchGo_done t p acc tr (by omega)]
    show TARGET_PRODUCTS_PER_QUERY ≤ acc.length
    omega
  | succ n ih =>
    intro t ht p acc tr _hn
    by_cases hlt : acc.length < TARGET_PRODUCTS_PER_QUERY
    · obtain ⟨r, s, he, hr⟩ := ht p
      rw [fetchGo_next t p acc tr r s hlt hr he]
      apply ih t ht (p + 1) (acc ++ r) (tr ++ [(p, acc.length)])
      have : 1 ≤ r.length := List.length_pos.mpr hr
      simp only [List.length_append]
      omega
    · rw [fetchGo_done t p acc tr hlt]
      show TARGET_PRODUCTS_PER_QUERY ≤ acc.length
      omega

/-- C3: for every transport behaviour, the per-query routine returns at most
500 records, and the full accumulator equals the returned records followed by
the discarded tail, i.e. the cap is enforced by a single final truncation. -/
theorem fetchProducts_le_cap (t : Nat → PageOutcome) :
    (fetchProducts t).length ≤ TARGET_PRODUCTS_PER_QUERY ∧
    (fetchGo t 1 [] []).1 =
      fetchProducts t ++ (fetchGo t 1 [] []).1.drop TARGET_PRODUCTS_PER_QUERY := by
  constructor
  · unfold fetchProducts
    rw [List.length_take]
    exact min_le_left _ _
  · exact (List.take_append_drop _ _).symm

/-- C5: the loop checks the accumulated count before issuing each page
request, so every issued request happens at a count strictly below the cap;
and when every page is nonempty with a non-null next-page token, fetching
stops only once the accumulated count has reached the cap. -/
theorem fetch_stops_exactly_at_cap (t : Nat → PageOutcome)
    (h : ∀ p, ∃ r s, t p = .page r (some (some s)) ∧ r ≠ []) :
    (∀ e ∈ fetchRequestTrace t, e.2 < TARGET_PRODUCTS_PER_QUERY) ∧
    TARGET_PRODUCTS_PER_QUERY ≤ (fetchGo t 1 [] []).1.length := by
  constructor
  · intro e he
    rcases fetchGo_trace_below_cap TARGET_PRODUCTS_PER_QUERY t 1 [] []
      (by simp) e he with h1 | h1
    · simp at h1
    · exact h1
  · exact fetchGo_reaches_cap TARGET_PRODUCTS_PER_QUERY t h 1 [] [] (by simp)

def sampleItem : SearchItem :=
  ⟨"B01", "https://amazon.example/dp/B01", "Phone",
    ⟨"o.jpg", "s.jpg", "m.jpg", "l.jpg"⟩, "INR", 2500, 2999, 4, 120,
    "https://api.example/B01"⟩

def sampleItemB : SearchItem :=
  ⟨"B02", "https://amazon.example/dp/B02", "Tablet",
    ⟨"o2.jpg", "s2.jpg", "m2.jpg", "l2.jpg"⟩, "INR", 999, 1299, 5, -1,
    "https://api.example/B02"⟩

/-- Transport whose every page is nonempty with a non-null next-page token. -/
def endlessTransport : Nat → PageOutcome :=
  fun _ => .page [sampleItem] (some (some "next"))

/-- C5 witness at a concrete transport. -/
theorem fetch_stops_exactly_at_cap_witness :
    (∀ p, ∃ r s, endlessTransport p = .page r (some (some s)) ∧ r ≠ []) ∧
    ((∀ e ∈ fetchRequestTrace endlessTransport,
        e.2 < TARGET_PRODUCTS_PER_QUERY) ∧
      TARGET_PRODUCTS_PER_QUERY ≤ (fetchGo endlessTransport 1 [] []).1.length) :=
  ⟨fun _ => ⟨[sampleItem], "next", rfl, by simp⟩,
    fetch_stops_exactly_at_cap endlessTransport
      (fun _ => ⟨[sampleItem], "next", rfl, by simp⟩)⟩

/-- C4: the routine absorbs transport failures: a thrown failure on page 3
stops pagination and the records of pages 1 and 2 are returned unchanged (in
the embedding, failures are data and `fetchProducts` is a total function, so
no exception reaches the caller). -/
theorem fetchProducts_failure_keeps_prior_pages (t : Nat → PageOutcome)
    (r1 r2 : List SearchItem) (s1 s2 : String)
    (h1 : t 1 = .page r1 (some (some s1)))
    (h2 : t 2 = .page r2 (some (some s2)))
    (h3 : t 3 = .transportError) (hn1 : r1 ≠ []) (hn2 : r2 ≠ [])
    (hlen : r1.length + r2.length < TARGET_PRODUCTS_PER_QUERY) :
    fetchProducts t = r1 ++ r2 := by
  unfold fetchProducts
  rw [fetchGo_next t 1 [] [] r1 s1 (by norm_num [TARGET_PRODUCTS_PER_QUERY]) hn1 h1]
  simp only [List.nil_append, List.length_nil]
  norm_num
  rw [fetchGo_next t 2 r1 [(1, 0)] r2 s2 (by omega) hn2 h2]
  norm_num
  rw [fetchGo_error t 3 (r1 ++ r2) _ (by simp only [List.length_append]; omega) h3]
  show (r1 ++ r2).take TARGET_PRODUCTS_PER_QUERY = r1 ++ r2
  apply List.take_of_length_le
  simp only [List.length_append]
  omega

/-- Transport that fails on page 3 after two good pages. -/
def failPage3Transport : Nat → PageOutcome :=
  fun p =>
    if p = 1 then .page [sampleItem] (some (some "2"))
    else if p = 2 then .page [sampleItemB] (some (some "3"))
    else .transportError

/-- C4 witness at a concrete transport. -/
theorem fetchProducts_failure_keeps_prior_pages_witness :
    failPage3Transport 3 = .transportError ∧
    fetchProducts failPage3Transport = [sampleItem] ++ [sampleItemB] :=
  ⟨rfl,
    fetchProducts_failure_keeps_prior_pages failPage3Transport
      [sampleItem] [sampleItemB] "2" "3" rfl rfl rfl (by simp) (by simp)
      (by norm_num [TARGET_PRODUCTS_PER_QUERY])⟩

/-- C9: a page whose `results` are nonempty but whose `pagination` object is
missing or malformed still contributes its items: the push happens before the
pagination token is read, so the thrown read only stops further paging. -/
theorem fetchProducts_badPagination_keeps_page (t : Nat → PageOutcome)
    (r1 r2 : List SearchItem) (s1 : String)
    (h1 : t 1 = .page r1 (some (some s1))) (h2 : t 2 = .page r2 none)
    (hn1 : r1 ≠ []) (hn2 : r2 ≠ [])
    (hlen : r1.length + r2.length ≤ TARGET_PRODUCTS_PER_QUERY) :
    fetchProducts t = r1 ++ r2 := by
  have hr2 : 1 ≤ r2.length := List.length_pos.mpr hn2
  unfold fetchProducts
  rw [fetchGo_next t 1 [] [] r1 s1 (by norm_num [TARGET_PRODUCTS_PER_QUERY]) hn1 h1]
  simp only [List.nil_append, List.length_nil]
  norm_num
  rw [fetchGo_badPagination t 2 r1 [(1, 0)] r2 (by omega) hn2 h2]
  show (r1 ++ r2).take TARGET_PRODUCTS_PER_QUERY = r1 ++ r2
  apply List.take_of_length_le
  simp only [List.length_append]
  omega

/-- Transport whose page 2 has results but a malformed pagination object. -/
def badPage2Transport : Nat → PageOutcome :=
  fun p =>
    if p = 1 then .page [sampleItem] (some (some "2"))
    else .page [sampleItemB] none

/-- C9 witness at a concrete transport. -/
theorem fetchProducts_badPagination_keeps_page_witness :
    badPage2Transport 2 = .page [sampleItemB] none ∧
    fetchProducts badPage2Transport = [sampleItem] ++ [sampleItemB] :=
  ⟨rfl,
    fetchProducts_badPagination_keeps_page badPage2Transport
      [sampleItem] [sampleItemB] "2" rfl rfl (by simp) (by simp)
      (by norm_num [TARGET_PRODUCTS_PER_QUERY])⟩

/-- C6: rating-count formatting: the sentinel -1 maps to the literal text,
counts below 1000 to a parenthesised count, counts below one million to the
one-decimal K form, and larger counts to the one-decimal M form, with the four
concrete example values of the claim. -/
theorem formatRatings_spec :
    formatRatings (-1) = "Number 1 Top-Rated" ∧
    formatRatings 500 = "(500)" ∧
    formatRatings 2500 = "(2.5K)" ∧
    formatRatings 3200000 = "(3.2M)" ∧
    (∀ n : Int, n ≠ -1 → n < 1000 →
      formatRatings n = "(" ++ toString n ++ ")") ∧
    (∀ n : Int, 1000 ≤ n → n < 1000000 →
      formatRatings n = "(" ++ toFixedOneDiv n 1000 ++ "K)") ∧
    (∀ n : Int, 1000000 ≤ n →
      formatRatings n = "(" ++ toFixedOneDiv n 1000000 ++ "M)") := by
  refine ⟨by decide, by decide, by decide, by decide, ?_, ?_, ?_⟩
  · intro n h1 h2
    simp [formatRatings, h1, h2]
  · intro n h1 h2
    have hne : n ≠ -1 := by omega
    have hge : ¬ n < 1000 := by omega
    simp [formatRatings, hne, hge, h2]
  · intro n h1
    have hne : n ≠ -1 := by omega
    have hge : ¬ n < 1000 := by omega
    have hge2 : ¬ n < 1000000 := by omega
    simp [formatRatings, hne, hge, hge2]

/-- C6 witness: the K branch applied at the concrete count 12345. -/
theorem formatRatings_spec_witness :
    (1000 : Int) ≤ 12345 ∧
    formatRatings 12345 = "(" ++ toFixedOneDiv 12345 1000 ++ "K)" :=
  ⟨by decide,
    formatRatings_spec.2.2.2.2.2.1 12345 (by decide) (by decide)⟩

/-- C10: there is a count in the K branch, namely 999999, whose one-decimal
display rounds up to 1000.0, so the emitted field is `(1000.0K)`. -/
theorem formatRatings_K_branch_overflow :
    ((1000 : Int) ≤ 999999 ∧ (999999 : Int) < 1000000) ∧
    formatRatings 999999 = "(1000.0K)" :=
  ⟨⟨by decide, by decide⟩, by decide⟩

/-- C1 counterexample: the emitted line for a product priced 2500 contains the
unescaped field `₹2,500`, so a CSV reader sees eight comma-separated fields on
that line, not seven. -/
theorem csvRow_eight_fields_counterexample :
    productToCsvRow sampleItem =
      "Phone,₹2,500,4,(120),https://amazon.example/dp/B01,s.jpg,Amazon" ∧
    csvFieldCount (productToCsvRow sampleItem) = 8 := by
  constructor
  · decide
  · decide

/-- C1 amended: each line joins exactly seven fields with commas in the fixed
order title, price, rating, ratings-display, product URL, image URL, source
label; only the title passes through the escaping rule (quoted, with internal
quotes doubled, exactly when it contains a comma, a double quote, or a
newline — including the example title of the claim); the other six fields are
emitted verbatim. -/
theorem csvRow_seven_fields_title_escaped :
    (∀ product : SearchItem,
      productToCsvRow product =
        String.intercalate "," [escapeCsvField product.title,
          formatPrice product.price, toString product.starRating,
          formatRatings product.totalRatings, product.productUrl,
          product.image.small, "Amazon"]) ∧
    (∀ field : String, containsBadChar field = true →
      escapeCsvField field = "\"" ++ String.mk (doubleQuotes field.data) ++ "\"") ∧
    (∀ field : String, containsBadChar field = false →
      escapeCsvField field = field) ∧
    escapeCsvField "He said \"hi\", ok" = "\"He said \"\"hi\"\", ok\"" := by
  refine ⟨fun product => rfl, ?_, ?_, by decide⟩
  · intro field h
    simp [escapeCsvField, h]
  · intro field h
    simp [escapeCsvField, h]

/-- C1 amended witness: the escaping rule applied at a concrete field. -/
theorem csvRow_seven_fields_title_escaped_witness :
    containsBadChar "a,b" = true ∧ escapeCsvField "a,b" = "\"a,b\"" :=
  ⟨by decide, by
    have h := csvRow_seven_fields_title_escaped.2.1 "a,b" (by decide)
    simpa using h⟩

/-- Embeds `existingContent.endsWith(newline)`: the last character test. -/
def endsWithNewline (s : String) : Bool :=
  s.data.getLast? == some '\n'

/-- Embeds lines 150-164 of src/index.ts: the existing content of `data.csv`
(`none` = file absent or unreadable, both of which leave the variable empty),
with a newline appended when it is nonempty and does not already end in one. -/
def normalizeExisting : Option String → String
  | none => ""
  | some s =>
    if s = "" then s
    else if endsWithNewline s then s
    else s ++ "\n"

/-- The ambient world `main` runs in: the CLI arguments after the executable
(`process.argv.slice(2)`), the transport behaviour per query and page, the
state of `data.csv`, and whether the final `Bun.write` throws. -/
structure Env where
  argv : List String
  transport : String → Nat → PageOutcome
  existingFile : Option String
  writeFails : Bool

/-- All records accumulated across the queries, in query order. -/
def fetchedProducts (env : Env) : List SearchItem :=
  env.argv.flatMap (fun q => fetchProducts (env.transport q))

/-- Embeds `csvRows.join(newline)` over all fetched products. -/
def csvContentOf (env : Env) : String :=
  String.intercalate "\n" ((fetchedProducts env).map productToCsvRow)

/-- Every page request the run issues, tagged with its query. -/
def requestsOf (env : Env) : List (String × Nat) :=
  env.argv.flatMap
    (fun q => (fetchRequestTrace (env.transport q)).map (fun e => (q, e.1)))

/-- Observable outcome of one invocation of `main` (before the entry line):
exit status, whether the usage text was printed, the page requests issued,
whether `data.csv` was read, and the content written to it (if any). -/
structure MainData where
  exitCode : Nat
  usagePrinted : Bool
  requests : List (String × Nat)
  fileRead : Bool
  written : Option String

/-- Embeds `main` from src/index.ts. The second component records whether the
promise returned by `main` rejected: `true` exactly when the final `Bun.write`
threw, after the fetches and the file read already happened. -/
def mainRun (env : Env) : MainData × Bool :=
  if env.argv = [] then
    (⟨1, true, [], false, none⟩, false)
  else if env.writeFails then
    (⟨0, false, requestsOf env, true, none⟩, true)
  else
    (⟨0, false, requestsOf env, true,
      some (normalizeExisting env.existingFile ++ csvContentOf env)⟩, false)

/-- Observable outcome of the whole process. -/
structure ProgOutcome where
  exitCode : Nat
  usagePrinted : Bool
  requests : List (String × Nat)
  fileRead : Bool
  written : Option String
  caughtLogged : Bool

/-- Embeds the entry line `main().catch(console.error)` of src/index.ts: a
rejection of the promise returned by `main` is handled by logging it, after
which the process exits normally with status 0. -/
def program (env : Env) : ProgOutcome :=
  let r := mainRun env
  if r.2 then ⟨0, r.1.usagePrinted, r.1.requests, r.1.fileRead, r.1.written, true⟩
  else ⟨r.1.exitCode, r.1.usagePrinted, r.1.requests, r.1.fileRead, r.1.written,
    false⟩

/-- C8: with zero query arguments the program prints the usage text and exits
with status 1, issuing no network request, never reading `data.csv` and never
writing it. -/
theorem zero_args_no_effects (t : String → Nat → PageOutcome)
    (f : Option String) (w : Bool) :
    program ⟨[], t, f, w⟩ = ⟨1, true, [], false, none, false⟩ := rfl

/-- Environment in which the final write of `data.csv` throws. -/
def writeFailEnv : Env :=
  ⟨["phone"], fun _ _ => .transportError, none, true⟩

/-- C2 counterexample: when the final write fails, the error is in fact
handled — the top-level catch logs it and the process exits with status 0,
not a non-zero status. -/
theorem writeFailure_unhandled_counterexample :
    (mainRun writeFailEnv).2 = true ∧
    (program writeFailEnv).caughtLogged = true ∧
    (program writeFailEnv).exitCode = 0 :=
  ⟨rfl, rfl, rfl⟩

/-- C2 amended: a failing final write makes the promise returned by `main`
reject (the error does propagate out of `main` unhandled there), but the
entry line `main().catch(console.error)` handles it: the error is logged and
the process exits normally with status 0, with nothing written. -/
theorem writeFailure_caught_at_top_level (env : Env)
    (h : env.argv ≠ []) (hw : env.writeFails = true) :
    (mainRun env).2 = true ∧
    (program env).caughtLogged = true ∧
    (program env).exitCode = 0 ∧
    (program env).written = none := by
  have hm : mainRun env = (⟨0, false, requestsOf env, true, none⟩, true) := by
    simp [mainRun, h, hw]
  refine ⟨by rw [hm], ?_, ?_, ?_⟩ <;> simp [program, hm]

/-- C2 amended witness at a concrete environment. -/
theorem writeFailure_caught_at_top_level_witness :
    writeFailEnv.argv ≠ [] ∧ writeFailEnv.writeFails = true ∧
    ((mainRun writeFailEnv).2 = true ∧
      (program writeFailEnv).caughtLogged = true ∧
      (program writeFailEnv).exitCode = 0 ∧
      (program writeFailEnv).written = none) :=
  ⟨by simp [writeFailEnv], rfl,
    writeFailure_caught_at_top_level writeFailEnv (by simp [writeFailEnv]) rfl⟩

/-- C7: the run preserves existing file content as a prefix of what it
writes: absent or empty prior content gives exactly the new rows, content
already ending in a newline is kept verbatim before the new rows, and
nonempty content without a trailing newline gets exactly one newline inserted
between it and the new rows. -/
theorem appended_content_spec (env : Env) (h : env.argv ≠ [])
    (hw : env.writeFails = false) :
    ((env.existingFile = none ∨ env.existingFile = some "") →
      (program env).written = some (csvContentOf env)) ∧
    (∀ s, env.existingFile = some s → endsWithNewline s = true →
      (program env).written = some (s ++ csvContentOf env)) ∧
    (∀ s, env.existingFile = some s → s ≠ "" → endsWithNewline s = false →
      (program env).written = some (s ++ "\n" ++ csvContentOf env)) := by
  have hm : (program env).written =
      some (normalizeExisting env.existingFile ++ csvContentOf env) := by
    simp [program, mainRun, h, hw]
  refine ⟨?_, ?_, ?_⟩
  · rintro (hf | hf) <;> rw [hm, hf] <;> simp [normalizeExisting]
  · intro s hf hnl
    rw [hm, hf]
    by_cases hs : s = "" <;> simp [normalizeExisting, hs, hnl]
  · intro s hf hs hnl
    rw [hm, hf]
    simp [normalizeExisting, hs, hnl]

/-- Environment with prior file content that lacks a trailing newline. -/
def appendEnv : Env :=
  ⟨["phone"], fun _ _ => .transportError, some "old", false⟩

/-- C7 witness at a concrete environment. -/
theorem appended_content_spec_witness :
    appendEnv.argv ≠ [] ∧ endsWithNewline "old" = false ∧
    (program appendEnv).written = some ("old" ++ "\n" ++ csvContentOf appendEnv) :=
  ⟨by simp [appendEnv], by decide,
    (appended_content_spec appendEnv (by simp [appendEnv]) rfl).2.2 "old" rfl
      (by decide) (by decide)⟩
